import Mathlib

/-!
Shallow embedding of the swimtracker worker core: the CrowdMonitor scrape
connector (`worker/src/scraper.ts`), the D1-backed occupancy store queries,
and the HTTP API router (`worker/src/api.ts`).

Modelling conventions:
- JS numbers are embedded as `ℚ` (the feed delivers integral counts; the
  arithmetic here — division, `Math.round`, `Math.floor`, `Math.min` — is
  exact on the rationals involved).
- `Math.round x` is `⌊x + 1/2⌋` (JS rounds half toward positive infinity).
- ISO-8601 timestamps are embedded as `ℤ` instants (seconds); SQLite compares
  the TEXT timestamps lexicographically, which on the fixed ISO format agrees
  with chronological order, so `MAX(timestamp)` / `timestamp < cutoff`
  become `max` / `<` on `ℤ`, and `datetime('now', '-N hours')` becomes
  `now - N * 3600`.
- The WebSocket interaction is embedded event-style: the outcome of one
  scrape call is determined by the first channel event (the single inbound
  message, an upstream error, or the 10 s timer firing).
-/

namespace SwimTracker

/-- `POOLS` from `scraper.ts`: the tracked Zurich pools, id to display name. -/
def POOLS : List (String × String) :=
  [("SSD-4", "Hallenbad City"),
   ("SSD-7", "Hallenbad Oerlikon"),
   ("SSD-10", "Utoquai"),
   ("SSD-6", "Leimbach"),
   ("fb012", "Heuried"),
   ("BADI-1", "Enge")]

/-- `TRACKED_POOL_IDS = new Set(Object.keys(POOLS))`. -/
def TRACKED_POOL_IDS : List String := POOLS.map Prod.fst

/-- JS `Math.round`: round half toward positive infinity. -/
def jsRound (x : ℚ) : ℤ := ⌊x + 1/2⌋

/-- `calculateOccupancyLevel` from `scraper.ts`:
`if (maxCapacity <= 0 || currentFill < 0) return 0;`
`return Math.min(4, Math.floor((ratio * 100) / 25) + 1)` with
`ratio = currentFill / maxCapacity`. -/
def calculateOccupancyLevel (currentFill maxCapacity : ℚ) : ℤ :=
  if maxCapacity ≤ 0 ∨ currentFill < 0 then 0
  else min 4 (⌊currentFill / maxCapacity * 100 / 25⌋ + 1)

/-- The `occupancy_percent` expression from `fetchFromWebSocket`:
`maxCapacity > 0 ? Math.round((currentFill / maxCapacity) * 10000) / 100 : 0`. -/
def occupancyPercent (currentFill maxCapacity : ℚ) : ℚ :=
  if 0 < maxCapacity then (jsRound (currentFill / maxCapacity * 10000) : ℚ) / 100
  else 0

/-- One raw entry of the upstream JSON array, after JS `Number(...)` coercion
of the `currentfill` / `maxspace` fields. -/
structure CrowdMonitorEntry where
  uid : String
  maxspace : ℚ
  currentfill : ℚ
deriving DecidableEq, Repr

/-- `PoolRecord` from `scraper.ts`: one normalized observation. -/
structure PoolRecord where
  timestamp : ℤ
  pool_id : String
  pool_name : String
  current_fill : ℚ
  max_capacity : ℚ
  occupancy_percent : ℚ
  occupancy_level : ℤ
deriving DecidableEq, Repr

/-- The record built for one tracked entry inside `fetchFromWebSocket`
(`POOLS[entry.uid] || entry.uid` for the name, derived percent and level). -/
def processEntry (timestamp : ℤ) (e : CrowdMonitorEntry) : PoolRecord :=
  { timestamp := timestamp
    pool_id := e.uid
    pool_name := (POOLS.lookup e.uid).getD e.uid
    current_fill := e.currentfill
    max_capacity := e.maxspace
    occupancy_percent := occupancyPercent e.currentfill e.maxspace
    occupancy_level := calculateOccupancyLevel e.currentfill e.maxspace }

/-- The message-processing pipeline of `fetchFromWebSocket`:
`data.filter((entry) => TRACKED_POOL_IDS.has(entry.uid)).map(...)`,
every produced record stamped with the one receipt-time timestamp. -/
def fetchRecords (timestamp : ℤ) (data : List CrowdMonitorEntry) : List PoolRecord :=
  (data.filter (fun e => TRACKED_POOL_IDS.contains e.uid)).map (processEntry timestamp)

/-- The first event observed on the one-shot WebSocket channel:
the single inbound message (already JSON-parsed entries), an unparseable
message, an upstream error event, or the 10 s timer firing first. -/
inductive ChannelEvent where
  | message (data : List CrowdMonitorEntry)
  | malformed
  | channelError
  | timeoutFired
deriving DecidableEq, Repr

/-- The rejection reasons of `fetchFromWebSocket`. -/
inductive ScrapeError where
  | timeout
  | parseError
  | channelError
deriving DecidableEq, Repr

/-- The `setTimeout(..., 10_000)` bound in `fetchFromWebSocket`, in ms. -/
def timeoutMs : ℕ := 10000

/-- The `setTimeout(() => ws.send('all'), 500)` delay, in ms. -/
def sendDelayMs : ℕ := 500

/-- Outcome of one `fetchFromWebSocket` call: whether `ws.close()` was
invoked, and the resolved records or the rejection. -/
structure FetchOutcome where
  wsClosed : Bool
  result : Except ScrapeError (List PoolRecord)

/-- `fetchFromWebSocket` from `scraper.ts`, by first channel event:
- message handler: clear timer, parse, stamp `new Date()` once, filter and
  map, `ws.close()`, resolve;
- parse failure inside the handler: `ws.close()`, reject;
- error listener: clear timer, reject (no close);
- timer: `ws.close()`, reject with the timeout error. -/
def fetchFromWebSocket (receiptTime : ℤ) (ev : ChannelEvent) : FetchOutcome :=
  match ev with
  | .message data => ⟨true, .ok (fetchRecords receiptTime data)⟩
  | .malformed => ⟨true, .error .parseError⟩
  | .channelError => ⟨false, .error .channelError⟩
  | .timeoutFired => ⟨true, .error .timeout⟩

/-- `scrapeAndStore` from `scraper.ts`: await the fetch (a rejection
propagates before any store access), then batch-insert all records and
return their count; an empty batch returns 0 without inserting.
The returned pair is (store contents after the call, outcome). -/
def scrapeAndStore (db : List PoolRecord) (receiptTime : ℤ) (ev : ChannelEvent) :
    List PoolRecord × Except ScrapeError ℕ :=
  match (fetchFromWebSocket receiptTime ev).result with
  | .error e => (db, .error e)
  | .ok records => (db ++ records, .ok records.length)

/-- The retention window of `cleanupOldData`, in days. -/
def retentionDays : ℕ := 90

/-- `cleanupOldData` from `scraper.ts`:
`DELETE FROM occupancy WHERE timestamp < datetime('now', '-90 days')`.
Returns (rows kept, `result.meta.changes` — the number of rows deleted). -/
def cleanupOldData (rows : List PoolRecord) (now : ℤ) : List PoolRecord × ℕ :=
  (rows.filter (fun r => !decide (r.timestamp < now - retentionDays * 86400)),
   rows.countP (fun r => decide (r.timestamp < now - retentionDays * 86400)))

/-- Ordering used by `ORDER BY pool_name`. -/
def byName (a b : PoolRecord) : Prop := a.pool_name ≤ b.pool_name

instance : DecidableRel byName :=
  fun a b => inferInstanceAs (Decidable (a.pool_name ≤ b.pool_name))

instance : IsTotal PoolRecord byName :=
  ⟨fun a b => le_total a.pool_name b.pool_name⟩

instance : IsTrans PoolRecord byName :=
  ⟨fun _ _ _ hab hbc => le_trans hab hbc⟩

/-- Ordering used by `ORDER BY timestamp ASC`. -/
def byTime (a b : PoolRecord) : Prop := a.timestamp ≤ b.timestamp

instance : DecidableRel byTime :=
  fun a b => inferInstanceAs (Decidable (a.timestamp ≤ b.timestamp))

instance : IsTotal PoolRecord byTime :=
  ⟨fun a b => le_total a.timestamp b.timestamp⟩

instance : IsTrans PoolRecord byTime :=
  ⟨fun _ _ _ hab hbc => le_trans hab hbc⟩

/-- `SELECT MAX(timestamp) FROM occupancy`: `none` on an empty table. -/
def maxTimestamp : List PoolRecord → Option ℤ
  | [] => none
  | r :: rs =>
    match maxTimestamp rs with
    | none => some r.timestamp
    | some m => some (max r.timestamp m)

/-- The query of `handleCurrent` (`api.ts`):
`SELECT * FROM occupancy WHERE timestamp = (SELECT MAX(timestamp) FROM occupancy)
 ORDER BY pool_name`. -/
def latestSnapshot (rows : List PoolRecord) : List PoolRecord :=
  match maxTimestamp rows with
  | none => []
  | some m =>
    List.insertionSort byName (rows.filter (fun r => decide (r.timestamp = m)))

/-- The query of `handleHistory` (`api.ts`):
`SELECT * FROM occupancy WHERE timestamp >= datetime('now', '-' || ? || ' hours')
 AND (pool_id = ? OR ? IS NULL) ORDER BY timestamp ASC`.
A `none` hour bound models the NaN case: `'-NaN hours'` is an invalid
SQLite modifier, `datetime` yields NULL, and the comparison with NULL
excludes every row. -/
def rangeQuery (rows : List PoolRecord) (clampedHours : Option ℤ) (pool : Option String)
    (now : ℤ) : List PoolRecord :=
  match clampedHours with
  | none => []
  | some h =>
    List.insertionSort byTime
      (rows.filter (fun r =>
        decide (now - h * 3600 ≤ r.timestamp) &&
        (match pool with
         | none => true
         | some p => r.pool_id == p)))

/-- `CORS_HEADERS` from `api.ts`. -/
def CORS_HEADERS : List (String × String) :=
  [("Access-Control-Allow-Origin", "*"),
   ("Access-Control-Allow-Methods", "GET, OPTIONS"),
   ("Access-Control-Allow-Headers", "Content-Type")]

/-- The JSON payloads the API serializes (always via `JSON.stringify` on a
value of one of these shapes, hence always well-formed JSON text). -/
inductive JsonValue where
  | rows (rs : List PoolRecord)
  | pools (ps : List (String × String × String))
  | errorObj (msg : String)
deriving DecidableEq, Repr

/-- A Workers `Response` as the API constructs it: status, optional JSON
body (`none` is the `null` body of the 204 preflight), headers. -/
structure WorkerResponse where
  status : ℕ
  body : Option JsonValue
  headers : List (String × String)
deriving DecidableEq, Repr

/-- The `json(data, status)` helper from `api.ts`. -/
def json (v : JsonValue) (status : ℕ) : WorkerResponse :=
  ⟨status, some v, ("Content-Type", "application/json") :: CORS_HEADERS⟩

/-- `handleOptions` from `api.ts`: 204, null body, CORS headers only. -/
def handleOptions : WorkerResponse := ⟨204, none, CORS_HEADERS⟩

/-- A rejected D1 read (`db.prepare(...).all()` throwing). -/
inductive StoreError where
  | readFailure
deriving DecidableEq, Repr

/-- The D1 binding as seen by one request: either the table contents are
readable, or every read rejects. -/
inductive D1 where
  | avail (rows : List PoolRecord)
  | readFailure
deriving DecidableEq, Repr

/-- `await db.prepare(q).all()`: the query function applied to the table, or
a rejection that propagates to the caller (there is no catch in `api.ts`). -/
def runQuery (db : D1) (q : List PoolRecord → List PoolRecord) :
    Except StoreError (List PoolRecord) :=
  match db with
  | .avail rows => .ok (q rows)
  | .readFailure => .error .readFailure

/-- `handleCurrent` from `api.ts`. -/
def handleCurrent (db : D1) : Except StoreError WorkerResponse :=
  (runQuery db latestSnapshot).map (fun rs => json (.rows rs) 200)

/-- Digit run to a number, as `parseInt` accumulates decimal digits. -/
def digitsVal (cs : List Char) : ℕ :=
  cs.foldl (fun n c => n * 10 + (c.toNat - 48)) 0

/-- JS `parseInt(s, 10)`: skip leading whitespace, optional sign, then the
longest run of decimal digits; `none` models NaN (no digits found). -/
def jsParseInt (s : String) : Option ℤ :=
  let cs := s.toList.dropWhile (fun c => c.isWhitespace)
  let signAndRest : ℤ × List Char :=
    match cs with
    | '-' :: t => (-1, t)
    | '+' :: t => (1, t)
    | t => (1, t)
  let digits := signAndRest.2.takeWhile (fun c => c.isDigit)
  if digits.isEmpty then none
  else some (signAndRest.1 * (digitsVal digits : ℤ))

/-- JS `x || d` on an optional query-parameter string: `null` and the empty
string are falsy. -/
def orDefault (v : Option String) (d : String) : String :=
  match v with
  | none => d
  | some s => if s = "" then d else s

/-- `url.searchParams.get('pool') || null`. -/
def normalizePool (p : Option String) : Option String :=
  match p with
  | none => none
  | some s => if s = "" then none else some s

/-- The hours computation of `handleHistory`:
`parseInt(url.searchParams.get('hours') || '24', 10)` followed by
`Math.min(Math.max(hours, 1), 168 * 4)`; a NaN parse (`none`) passes through
`Math.max` / `Math.min` unchanged as NaN. -/
def effectiveHours (hoursParam : Option String) : Option ℤ :=
  (jsParseInt (orDefault hoursParam "24")).map (fun h => min (max h 1) (168 * 4))

/-- `handleHistory` from `api.ts`. -/
def handleHistory (db : D1) (hoursParam poolParam : Option String) (now : ℤ) :
    Except StoreError WorkerResponse :=
  (runQuery db (fun rows =>
      rangeQuery rows (effectiveHours hoursParam) (normalizePool poolParam) now)).map
    (fun rs => json (.rows rs) 200)

/-- The indoor classification list of `handlePools`. -/
def INDOOR_POOL_IDS : List String := ["SSD-4", "SSD-6", "SSD-7"]

/-- `handlePools` from `api.ts`. -/
def handlePools : WorkerResponse :=
  json (.pools (POOLS.map (fun p =>
    (p.1, p.2, if INDOOR_POOL_IDS.contains p.1 then "indoor" else "outdoor")))) 200

/-- An incoming request as the router inspects it. -/
structure ApiRequest where
  method : String
  pathname : String
  hoursParam : Option String
  poolParam : Option String
deriving DecidableEq, Repr

/-- `handleRequest` from `api.ts`: OPTIONS preflight, then the GET-only
guard, then the path switch. No part of it catches a store rejection. -/
def handleRequest (req : ApiRequest) (db : D1) (now : ℤ) :
    Except StoreError WorkerResponse :=
  if req.method = "OPTIONS" then .ok handleOptions
  else if req.method ≠ "GET" then .ok (json (.errorObj "Method not allowed") 405)
  else
    match req.pathname with
    | "/api/current" => handleCurrent db
    | "/api/history" => handleHistory db req.hoursParam req.poolParam now
    | "/api/pools" => .ok handlePools
    | _ => .ok (json (.errorObj "Not found") 404)

/-- Every CORS header is present on the response. -/
def hasCorsHeaders (resp : WorkerResponse) : Prop :=
  ∀ h ∈ CORS_HEADERS, h ∈ resp.headers

/-- The level rule exactly as the spec words it for claim comparison:
bucket the rounded two-decimal `occupancy_percent` into quartiles.
This is the comparison definition for a refinement claim; the source
computation is `calculateOccupancyLevel`, which buckets the raw ratio. -/
def specOccupancyLevel (currentFill maxCapacity : ℚ) : ℤ :=
  if 0 < maxCapacity ∧ 0 ≤ currentFill then
    min 4 (⌊occupancyPercent currentFill maxCapacity / 25⌋ + 1)
  else 0

end SwimTracker

namespace SwimTracker

/-- C1 counterexample: for the entry with fill 6249 and capacity 25000 the
stored two-decimal percent is 25.00, so the claimed rule
`min(4, floor(percent/25) + 1)` yields level 2, but the connector stores
level 1 (it buckets the raw ratio 24.996, not the rounded percent). -/
theorem c1_counterexample :
    (processEntry 0 ⟨"SSD-4", 25000, 6249⟩).occupancy_percent = 25
    ∧ (processEntry 0 ⟨"SSD-4", 25000, 6249⟩).occupancy_level = 1
    ∧ specOccupancyLevel 6249 25000 = 2
    ∧ min 4 (⌊(processEntry 0 ⟨"SSD-4", 25000, 6249⟩).occupancy_percent / 25⌋ + 1)
        = 2 := by
  refine ⟨?_, ?_, ?_, ?_⟩ <;>
    norm_num [processEntry, occupancyPercent, jsRound, calculateOccupancyLevel,
      specOccupancyLevel]

/-- C1 (amended): the connector derives
`occupancy_level = min(4, floor((fill/capacity x 100)/25) + 1)` from the raw
ratio (not from the rounded two-decimal percent) when `capacity > 0` and
`fill >= 0`, else `0`; in the valid branch the level lies in 1..4, is 4
exactly when the raw percentage is at least 75, and equals `k` in 1..3
exactly when the raw percentage lies in `[25(k-1), 25k)`. -/
theorem c1_level_from_raw_ratio (fill cap : ℚ) :
    ((cap ≤ 0 ∨ fill < 0) → calculateOccupancyLevel fill cap = 0)
    ∧ (∀ ts e, (processEntry ts e).occupancy_level
        = calculateOccupancyLevel e.currentfill e.maxspace)
    ∧ (0 < cap → 0 ≤ fill →
        calculateOccupancyLevel fill cap = min 4 (⌊fill / cap * 100 / 25⌋ + 1)
        ∧ 1 ≤ calculateOccupancyLevel fill cap
        ∧ calculateOccupancyLevel fill cap ≤ 4
        ∧ (calculateOccupancyLevel fill cap = 4 ↔ 75 ≤ fill / cap * 100)
        ∧ ∀ k : ℤ, 1 ≤ k → k ≤ 3 →
            (calculateOccupancyLevel fill cap = k ↔
              25 * ((k : ℚ) - 1) ≤ fill / cap * 100 ∧ fill / cap * 100 < 25 * k)) := by
  refine ⟨?_, fun ts e => rfl, ?_⟩
  · intro h
    simp [calculateOccupancyLevel, h]
  · intro hc hf
    have hcond : ¬ (cap ≤ 0 ∨ fill < 0) := by
      push_neg
      exact ⟨hc, hf⟩
    have hx : 0 ≤ fill / cap * 100 := by positivity
    have hn : 0 ≤ ⌊fill / cap * 100 / 25⌋ := Int.floor_nonneg.mpr (by positivity)
    simp only [calculateOccupancyLevel, if_neg hcond]
    refine ⟨by trivial, ?_, min_le_left _ _, ?_, ?_⟩
    · exact le_min (by norm_num) (by omega)
    · rw [min_eq_left_iff]
      constructor
      · intro h4
        have h3 : (3 : ℤ) ≤ ⌊fill / cap * 100 / 25⌋ := by omega
        have h3q : (3 : ℚ) ≤ fill / cap * 100 / 25 := by exact_mod_cast Int.le_floor.mp h3
        have := (le_div_iff₀ (by norm_num : (0:ℚ) < 25)).mp h3q
        linarith
      · intro h75
        have h3q : (3 : ℚ) ≤ fill / cap * 100 / 25 := by
          rw [le_div_iff₀ (by norm_num : (0:ℚ) < 25)]
          linarith
        have h3 : (3 : ℤ) ≤ ⌊fill / cap * 100 / 25⌋ :=
          Int.le_floor.mpr (by exact_mod_cast h3q)
        omega
    · intro k hk1 hk3
      have hmin : min 4 (⌊fill / cap * 100 / 25⌋ + 1) = k
          ↔ ⌊fill / cap * 100 / 25⌋ = k - 1 := by omega
      rw [hmin]
      rw [Int.floor_eq_iff]
      constructor
      · rintro ⟨hlo, hhi⟩
        rw [le_div_iff₀ (by norm_num : (0:ℚ) < 25)] at hlo
        rw [div_lt_iff₀ (by norm_num : (0:ℚ) < 25)] at hhi
        push_cast at hlo hhi
        constructor <;> linarith
      · rintro ⟨hlo, hhi⟩
        constructor
        · rw [le_div_iff₀ (by norm_num : (0:ℚ) < 25)]
          push_cast
          linarith
        · rw [div_lt_iff₀ (by norm_num : (0:ℚ) < 25)]
          push_cast
          linarith

/-- C1 witness: fill 50 of capacity 200 is the spec example, raw percentage
25, level 2. -/
theorem c1_level_from_raw_ratio_witness :
    (0:ℚ) < 200 ∧ (0:ℚ) ≤ 50
    ∧ calculateOccupancyLevel 50 200 = min 4 (⌊(50:ℚ) / 200 * 100 / 25⌋ + 1)
    ∧ calculateOccupancyLevel 50 200 = 2 :=
  ⟨by norm_num, by norm_num,
   ((c1_level_from_raw_ratio 50 200).2.2 (by norm_num) (by norm_num)).1,
   by norm_num [calculateOccupancyLevel]⟩

/-- C4: the connector stores
`occupancy_percent = round((fill/capacity) * 10000) / 100` whenever
`capacity > 0` (a value with at most two decimals, within 1/200 of the exact
percentage), and `occupancy_percent = 0` whenever `capacity <= 0`, regardless
of fill. -/
theorem c4_percent_formula (ts : ℤ) (e : CrowdMonitorEntry) :
    (0 < e.maxspace →
        (processEntry ts e).occupancy_percent
          = (jsRound (e.currentfill / e.maxspace * 10000) : ℚ) / 100
        ∧ (∃ n : ℤ, (processEntry ts e).occupancy_percent = (n : ℚ) / 100)
        ∧ |(processEntry ts e).occupancy_percent - e.currentfill / e.maxspace * 100|
            ≤ 1 / 200)
    ∧ (e.maxspace ≤ 0 → (processEntry ts e).occupancy_percent = 0) := by
  constructor
  · intro hc
    have hform : (processEntry ts e).occupancy_percent
        = (jsRound (e.currentfill / e.maxspace * 10000) : ℚ) / 100 := by
      simp [processEntry, occupancyPercent, hc]
    refine ⟨hform, ⟨jsRound (e.currentfill / e.maxspace * 10000), hform⟩, ?_⟩
    rw [hform]
    have h1 : (⌊e.currentfill / e.maxspace * 10000 + 1/2⌋ : ℚ)
        ≤ e.currentfill / e.maxspace * 10000 + 1/2 := Int.floor_le _
    have h2 : e.currentfill / e.maxspace * 10000 + 1/2
        < ⌊e.currentfill / e.maxspace * 10000 + 1/2⌋ + 1 := Int.lt_floor_add_one _
    have hyx : e.currentfill / e.maxspace * 100
        = e.currentfill / e.maxspace * 10000 / 100 := by ring
    rw [hyx, jsRound, abs_le]
    constructor <;> linarith
  · intro hc
    simp [processEntry, occupancyPercent, not_lt.mpr hc]

/-- C4 witness: fill 50 of capacity 200 gives exactly 25.00 percent. -/
theorem c4_percent_formula_witness :
    (0:ℚ) < 200
    ∧ (processEntry 0 ⟨"SSD-4", 200, 50⟩).occupancy_percent
        = (jsRound ((50:ℚ) / 200 * 10000) : ℚ) / 100
    ∧ (processEntry 0 ⟨"SSD-4", 200, 50⟩).occupancy_percent = 25 :=
  ⟨by norm_num,
   ((c4_percent_formula 0 ⟨"SSD-4", 200, 50⟩).1 (by norm_num)).1,
   by norm_num [processEntry, occupancyPercent, jsRound]⟩

/-- C10 counterexample: capacity 100000 with fill -1 is an entry with
`capacity > 0` and `fill < 0` whose stored percent is 0, not negative
(JS rounds -0.1 to -0, stored as 0). -/
theorem c10_counterexample :
    (0:ℚ) < 100000 ∧ (-1:ℚ) < 0
    ∧ (processEntry 0 ⟨"SSD-4", 100000, -1⟩).occupancy_percent = 0
    ∧ ¬ (processEntry 0 ⟨"SSD-4", 100000, -1⟩).occupancy_percent < 0 := by
  refine ⟨by norm_num, by norm_num, ?_, ?_⟩ <;>
    norm_num [processEntry, occupancyPercent, jsRound]

/-- C10 (amended): for `capacity > 0` and `fill < 0` the connector stores
`occupancy_percent = round((fill/capacity) * 10000) / 100` — nonpositive, and
strictly negative whenever `(fill/capacity) * 10000 < -1/2` (otherwise the
rounding yields 0) — while `occupancy_level = 0`; the percent-equals-zero
override applies only to `capacity <= 0`. -/
theorem c10_negative_fill (ts : ℤ) (e : CrowdMonitorEntry)
    (hc : 0 < e.maxspace) (hf : e.currentfill < 0) :
    (processEntry ts e).occupancy_percent
        = (jsRound (e.currentfill / e.maxspace * 10000) : ℚ) / 100
    ∧ (processEntry ts e).occupancy_percent ≤ 0
    ∧ (processEntry ts e).occupancy_level = 0
    ∧ (e.currentfill / e.maxspace * 10000 < -(1/2) →
        (processEntry ts e).occupancy_percent < 0) := by
  have hform : (processEntry ts e).occupancy_percent
      = (jsRound (e.currentfill / e.maxspace * 10000) : ℚ) / 100 := by
    simp [processEntry, occupancyPercent, hc]
  have hyneg : e.currentfill / e.maxspace * 10000 < 0 :=
    mul_neg_of_neg_of_pos (div_neg_of_neg_of_pos hf hc) (by norm_num)
  refine ⟨hform, ?_, ?_, ?_⟩
  · rw [hform]
    have hle : ⌊e.currentfill / e.maxspace * 10000 + 1/2⌋ ≤ ⌊(1/2 : ℚ)⌋ :=
      Int.floor_le_floor (by linarith)
    have hz : ⌊(1/2 : ℚ)⌋ = 0 := by norm_num
    have : (jsRound (e.currentfill / e.maxspace * 10000) : ℚ) ≤ 0 := by
      rw [jsRound]
      exact_mod_cast hz ▸ hle
    linarith
  · simp [processEntry, calculateOccupancyLevel, hf]
  · intro hstrict
    rw [hform]
    have hlt : (⌊e.currentfill / e.maxspace * 10000 + 1/2⌋ : ℚ)
        ≤ e.currentfill / e.maxspace * 10000 + 1/2 := Int.floor_le _
    have : (jsRound (e.currentfill / e.maxspace * 10000) : ℚ) < 0 := by
      rw [jsRound]
      linarith
    linarith

/-- C10 witness: fill -50 of capacity 200 stores percent -25.00 and level 0. -/
theorem c10_negative_fill_witness :
    (processEntry 0 ⟨"SSD-4", 200, -50⟩).occupancy_percent
        = (jsRound ((-50:ℚ) / 200 * 10000) : ℚ) / 100
    ∧ (processEntry 0 ⟨"SSD-4", 200, -50⟩).occupancy_percent = -25
    ∧ (processEntry 0 ⟨"SSD-4", 200, -50⟩).occupancy_level = 0 :=
  ⟨(c10_negative_fill 0 ⟨"SSD-4", 200, -50⟩ (by norm_num) (by norm_num)).1,
   by norm_num [processEntry, occupancyPercent, jsRound],
   (c10_negative_fill 0 ⟨"SSD-4", 200, -50⟩ (by norm_num) (by norm_num)).2.2.1⟩

end SwimTracker

namespace SwimTracker

/-- Every record the message pipeline emits carries a tracked pool id. -/
theorem fetchRecords_tracked (receiptTime : ℤ) (data : List CrowdMonitorEntry) :
    ∀ r ∈ fetchRecords receiptTime data, r.pool_id ∈ TRACKED_POOL_IDS := by
  intro r hr
  simp only [fetchRecords, List.mem_map] at hr
  obtain ⟨e, he, rfl⟩ := hr
  have h2 := (List.mem_filter.mp he).2
  simpa [processEntry] using h2

/-- C6: entries whose facility id is not in the catalog are silently dropped
during ingestion — every produced record has a tracked pool id, none carries
an untracked id — and a payload containing untracked ids still resolves
normally (no error) and stores exactly the tracked records. -/
theorem c6_untracked_dropped (receiptTime : ℤ) (data : List CrowdMonitorEntry)
    (db : List PoolRecord) :
    (∀ r ∈ fetchRecords receiptTime data, r.pool_id ∈ TRACKED_POOL_IDS)
    ∧ (∀ uid, uid ∉ TRACKED_POOL_IDS →
        ∀ r ∈ fetchRecords receiptTime data, r.pool_id ≠ uid)
    ∧ (fetchFromWebSocket receiptTime (.message data)).result
        = .ok (fetchRecords receiptTime data)
    ∧ scrapeAndStore db receiptTime (.message data)
        = (db ++ fetchRecords receiptTime data,
           .ok (fetchRecords receiptTime data).length) :=
  ⟨fetchRecords_tracked receiptTime data,
   fun uid hu r hr heq => hu (heq ▸ fetchRecords_tracked receiptTime data r hr),
   rfl, rfl⟩

/-- C6 witness: a payload holding the untracked id UNKNOWN-1 next to the
tracked SSD-4 yields exactly the SSD-4 record. -/
theorem c6_untracked_dropped_witness :
    (∀ r ∈ fetchRecords 0 [⟨"UNKNOWN-1", 100, 10⟩, ⟨"SSD-4", 200, 50⟩],
        r.pool_id ∈ TRACKED_POOL_IDS)
    ∧ fetchRecords 0 [⟨"UNKNOWN-1", 100, 10⟩, ⟨"SSD-4", 200, 50⟩]
        = [processEntry 0 ⟨"SSD-4", 200, 50⟩] :=
  ⟨(c6_untracked_dropped 0 [⟨"UNKNOWN-1", 100, 10⟩, ⟨"SSD-4", 200, 50⟩] []).1,
   by rfl⟩

/-- Filter and count split a list's length. -/
theorem length_filter_not_add_countP (p : PoolRecord → Bool) (l : List PoolRecord) :
    (l.filter (fun r => !p r)).length + l.countP p = l.length := by
  induction l with
  | nil => simp
  | cons a t ih =>
      by_cases h : p a = true <;> simp [List.filter, List.countP_cons, h] <;> omega

/-- C7: the retention operation keeps exactly the records with timestamp at
or after the 90-day cutoff, removes all and only the strictly older ones,
reports the removed count, and is idempotent — rerunning it on its own
output reports zero deletions. -/
theorem c7_retention (rows : List PoolRecord) (now : ℤ) :
    (∀ r ∈ (cleanupOldData rows now).1, ¬ r.timestamp < now - 90 * 86400)
    ∧ (∀ r ∈ rows, ¬ r.timestamp < now - 90 * 86400 → r ∈ (cleanupOldData rows now).1)
    ∧ (cleanupOldData rows now).2
        = (rows.filter (fun r => decide (r.timestamp < now - 90 * 86400))).length
    ∧ (cleanupOldData rows now).1.length + (cleanupOldData rows now).2 = rows.length
    ∧ (cleanupOldData (cleanupOldData rows now).1 now).2 = 0 := by
  have hcut : now - (retentionDays : ℤ) * 86400 = now - 90 * 86400 := by
    norm_num [retentionDays]
  refine ⟨?_, ?_, ?_, ?_, ?_⟩
  · intro r hr
    have h2 := (List.mem_filter.mp hr).2
    rw [hcut] at h2
    simpa using h2
  · intro r hr h
    refine List.mem_filter.mpr ⟨hr, ?_⟩
    rw [hcut]
    simpa using h
  · simp only [cleanupOldData, hcut]
    exact List.countP_eq_length_filter _ _
  · simp only [cleanupOldData]
    exact length_filter_not_add_countP _ rows
  · simp only [cleanupOldData]
    rw [List.countP_eq_zero]
    intro r hr
    have h2 := (List.mem_filter.mp hr).2
    simpa using h2

/-- C8: when the 10 s timer fires before any inbound message, the call
closes the channel, rejects with the timeout error, and the store is left
exactly as it was — zero records written. -/
theorem c8_timeout_writes_nothing (db : List PoolRecord) (receiptTime : ℤ) :
    timeoutMs = 10000
    ∧ (fetchFromWebSocket receiptTime .timeoutFired).wsClosed = true
    ∧ (fetchFromWebSocket receiptTime .timeoutFired).result = .error .timeout
    ∧ scrapeAndStore db receiptTime .timeoutFired = (db, .error .timeout) :=
  ⟨rfl, rfl, rfl, rfl⟩

/-- C9: every record a successful scrape call resolves with carries the one
capture timestamp taken at message receipt. -/
theorem c9_single_timestamp (receiptTime : ℤ) (ev : ChannelEvent)
    (records : List PoolRecord)
    (hok : (fetchFromWebSocket receiptTime ev).result = .ok records) :
    ∀ r ∈ records, r.timestamp = receiptTime := by
  cases ev with
  | message data =>
      simp only [fetchFromWebSocket, Except.ok.injEq] at hok
      subst hok
      intro r hr
      simp only [fetchRecords, List.mem_map] at hr
      obtain ⟨e, he, rfl⟩ := hr
      rfl
  | malformed => simp [fetchFromWebSocket] at hok
  | channelError => simp [fetchFromWebSocket] at hok
  | timeoutFired => simp [fetchFromWebSocket] at hok

/-- C9 witness: one message with one tracked entry, received at instant 5. -/
theorem c9_single_timestamp_witness :
    (fetchFromWebSocket 5 (.message [⟨"SSD-4", 200, 50⟩])).result
        = .ok (fetchRecords 5 [⟨"SSD-4", 200, 50⟩])
    ∧ ∀ r ∈ fetchRecords 5 [⟨"SSD-4", 200, 50⟩], r.timestamp = 5 :=
  ⟨rfl, c9_single_timestamp 5 (.message [⟨"SSD-4", 200, 50⟩]) _ rfl⟩

end SwimTracker

namespace SwimTracker

/-- `MAX(timestamp)` is NULL exactly on an empty table. -/
theorem maxTimestamp_eq_none_iff (rows : List PoolRecord) :
    maxTimestamp rows = none ↔ rows = [] := by
  cases rows with
  | nil => simp [maxTimestamp]
  | cons r rs =>
      simp only [maxTimestamp]
      cases maxTimestamp rs <;> simp

/-- The max timestamp is attained by some row and bounds every row. -/
theorem maxTimestamp_isMax : ∀ (rows : List PoolRecord) (m : ℤ),
    maxTimestamp rows = some m →
    (∃ r ∈ rows, r.timestamp = m) ∧ ∀ r ∈ rows, r.timestamp ≤ m := by
  intro rows
  induction rows with
  | nil => intro m h; simp [maxTimestamp] at h
  | cons a t ih =>
      intro m h
      simp only [maxTimestamp] at h
      cases ht : maxTimestamp t with
      | none =>
          rw [ht] at h
          simp only [Option.some.injEq] at h
          subst h
          have hnil : t = [] := (maxTimestamp_eq_none_iff t).mp ht
          subst hnil
          exact ⟨⟨a, by simp⟩, by simp⟩
      | some mt =>
          rw [ht] at h
          simp only [Option.some.injEq] at h
          subst h
          obtain ⟨⟨w, hw, hwts⟩, hall⟩ := ih mt ht
          constructor
          · rcases le_total a.timestamp mt with hle | hle
            · refine ⟨w, by simp [hw], ?_⟩
              rw [hwts]
              exact (max_eq_right hle).symm
            · exact ⟨a, by simp, (max_eq_left hle).symm⟩
          · intro r hr
            rcases List.mem_cons.mp hr with rfl | hrt
            · exact le_max_left _ _
            · exact le_trans (hall r hrt) (le_max_right _ _)

/-- C5: on a nonempty store with maximum timestamp `m`, `latestSnapshot`
returns a row exactly when it is stored with timestamp `m` (so never rows of
two capture times), sorted by facility display name and a permutation of the
filter by `m`; `m` is attained and bounds every stored row, and
`handleCurrent` serves exactly this list as the 200 JSON body. -/
theorem c5_latest_snapshot (rows : List PoolRecord) (m : ℤ)
    (hm : maxTimestamp rows = some m) :
    (∀ r ∈ latestSnapshot rows, r.timestamp = m)
    ∧ (∀ r, r ∈ latestSnapshot rows ↔ r ∈ rows ∧ r.timestamp = m)
    ∧ List.Sorted byName (latestSnapshot rows)
    ∧ (latestSnapshot rows).Perm
        (rows.filter (fun r => decide (r.timestamp = m)))
    ∧ (∃ r ∈ rows, r.timestamp = m)
    ∧ (∀ r ∈ rows, r.timestamp ≤ m)
    ∧ handleCurrent (.avail rows)
        = .ok (json (.rows (latestSnapshot rows)) 200) := by
  have hls : latestSnapshot rows
      = List.insertionSort byName
          (rows.filter (fun r => decide (r.timestamp = m))) := by
    simp [latestSnapshot, hm]
  obtain ⟨hatt, hbound⟩ := maxTimestamp_isMax rows m hm
  refine ⟨?_, ?_, ?_, ?_, hatt, hbound, rfl⟩
  · intro r hr
    rw [hls, List.mem_insertionSort] at hr
    simpa using (List.mem_filter.mp hr).2
  · intro r
    rw [hls, List.mem_insertionSort, List.mem_filter]
    simp
  · rw [hls]
    exact List.sorted_insertionSort byName _
  · rw [hls]
    exact List.perm_insertionSort byName _

/-- Store contents exercising C5: two capture times, 2 the maximum. -/
def c5rows : List PoolRecord :=
  [{ timestamp := 2, pool_id := "SSD-7", pool_name := "Hallenbad Oerlikon",
     current_fill := 10, max_capacity := 100, occupancy_percent := 10,
     occupancy_level := 1 },
   { timestamp := 1, pool_id := "SSD-4", pool_name := "Hallenbad City",
     current_fill := 5, max_capacity := 100, occupancy_percent := 5,
     occupancy_level := 1 },
   { timestamp := 2, pool_id := "SSD-4", pool_name := "Hallenbad City",
     current_fill := 7, max_capacity := 100, occupancy_percent := 7,
     occupancy_level := 1 }]

/-- C5 witness: the store with capture times 1 and 2. -/
theorem c5_latest_snapshot_witness :
    maxTimestamp c5rows = some 2
    ∧ ((∀ r ∈ latestSnapshot c5rows, r.timestamp = 2)
       ∧ (∀ r, r ∈ latestSnapshot c5rows ↔ r ∈ c5rows ∧ r.timestamp = 2)
       ∧ List.Sorted byName (latestSnapshot c5rows)
       ∧ (latestSnapshot c5rows).Perm
           (c5rows.filter (fun r => decide (r.timestamp = 2)))
       ∧ (∃ r ∈ c5rows, r.timestamp = 2)
       ∧ (∀ r ∈ c5rows, r.timestamp ≤ 2)
       ∧ handleCurrent (.avail c5rows)
           = .ok (json (.rows (latestSnapshot c5rows)) 200)) :=
  ⟨by rfl, c5_latest_snapshot c5rows 2 (by rfl)⟩

/-- Any `json(...)` response carries all CORS headers. -/
theorem json_hasCors (v : JsonValue) (s : ℕ) : hasCorsHeaders (json v s) := by
  intro x hx
  simp only [CORS_HEADERS, List.mem_cons, List.not_mem_nil, or_false] at hx
  rcases hx with h | h | h <;> simp [json, CORS_HEADERS, h]

/-- Any `json(...)` response is a JSON body with CORS headers. -/
theorem json_response_ok (v : JsonValue) (s : ℕ) :
    hasCorsHeaders (json v s)
    ∧ ((json v s).status = 204 ∧ (json v s).body = none
       ∨ ∃ w, (json v s).body = some w
           ∧ ("Content-Type", "application/json") ∈ (json v s).headers) :=
  ⟨json_hasCors v s, Or.inr ⟨v, rfl, by simp [json]⟩⟩

/-- C2 counterexample: with a failing store read, a GET of /api/current does
not produce any response at all — the rejection escapes the handler — in
particular no generic 500 JSON error. -/
theorem c2_counterexample :
    handleRequest ⟨"GET", "/api/current", none, none⟩ .readFailure 0
        = .error .readFailure
    ∧ ∀ resp, handleRequest ⟨"GET", "/api/current", none, none⟩ .readFailure 0
        ≠ .ok resp := by
  refine ⟨rfl, ?_⟩
  intro resp h
  have h2 : (Except.error StoreError.readFailure :
      Except StoreError WorkerResponse) = .ok resp := h
  exact Except.noConfusion h2

/-- C2 (amended): a failing store read on the data routes propagates out of
`handleRequest` uncaught (no 500 JSON conversion exists in the code); every
response the handler itself returns carries the permissive CORS headers and
is either the 204 empty preflight or a JSON body. -/
theorem c2_store_failure_propagates (req : ApiRequest) (db : D1) (now : ℤ) :
    (req.method = "GET" →
      (req.pathname = "/api/current" ∨ req.pathname = "/api/history") →
      db = .readFailure →
      handleRequest req db now = .error .readFailure)
    ∧ (∀ resp, handleRequest req db now = .ok resp →
        hasCorsHeaders resp
        ∧ ((resp.status = 204 ∧ resp.body = none)
           ∨ ∃ v, resp.body = some v
               ∧ ("Content-Type", "application/json") ∈ resp.headers)) := by
  constructor
  · intro hm hp hdb
    subst hdb
    have hopt : ¬ req.method = "OPTIONS" := by rw [hm]; decide
    rcases hp with hp | hp <;>
      simp [handleRequest, hopt, hm, hp, handleCurrent, handleHistory, runQuery,
        Except.map]
  · intro resp h
    by_cases hopt : req.method = "OPTIONS"
    · simp only [handleRequest, if_pos hopt] at h
      injection h with h
      subst h
      exact ⟨fun x hx => hx, Or.inl ⟨rfl, rfl⟩⟩
    · by_cases hget : req.method = "GET"
      · simp only [handleRequest, if_neg hopt, if_neg (not_not_intro hget)] at h
        split at h
        · cases db with
          | avail rows =>
              simp only [handleCurrent, runQuery, Except.map] at h
              injection h with h
              subst h
              exact json_response_ok _ _
          | readFailure => simp [handleCurrent, runQuery, Except.map] at h
        · cases db with
          | avail rows =>
              simp only [handleHistory, runQuery, Except.map] at h
              injection h with h
              subst h
              exact json_response_ok _ _
          | readFailure => simp [handleHistory, runQuery, Except.map] at h
        · injection h with h
          subst h
          exact json_response_ok _ _
        · injection h with h
          subst h
          exact json_response_ok _ _
      · have hne : req.method ≠ "GET" := hget
        simp only [handleRequest, if_neg hopt, if_pos hne] at h
        injection h with h
        subst h
        exact json_response_ok _ _

/-- C2 witness: the propagation branch at a concrete failing request. -/
theorem c2_store_failure_propagates_witness :
    handleRequest ⟨"GET", "/api/history", none, none⟩ .readFailure 0
        = .error .readFailure :=
  (c2_store_failure_propagates ⟨"GET", "/api/history", none, none⟩
    .readFailure 0).1 rfl (Or.inr rfl) rfl

end SwimTracker

namespace SwimTracker

/-- A record within the last 24 hours of the instant 1000000. -/
def demoRecord : PoolRecord :=
  { timestamp := 1000000, pool_id := "SSD-4", pool_name := "Hallenbad City",
    current_fill := 50, max_capacity := 200, occupancy_percent := 25,
    occupancy_level := 2 }

/-- C3 counterexample: the non-numeric hours value "abc" does not fall back
to the default 24 — `parseInt` yields NaN, the clamp passes NaN through, and
the history query matches no rows, unlike the genuine default. -/
theorem c3_counterexample :
    effectiveHours (some "abc") = none
    ∧ effectiveHours (some "abc") ≠ some 24
    ∧ handleHistory (.avail [demoRecord]) (some "abc") none 1000000
        = .ok (json (.rows []) 200)
    ∧ handleHistory (.avail [demoRecord]) none none 1000000
        = .ok (json (.rows [demoRecord]) 200) :=
  ⟨rfl, by decide, rfl, rfl⟩

/-- C3 (amended): any numeric hours value is clamped into [1, 672] and a
missing (or empty) value defaults to 24, while a non-numeric value parses to
NaN, which survives the clamp and makes the range query return the empty
list; in every case the handler answers 200 with a JSON array — parameter
issues never surface as errors. -/
theorem c3_hours_clamping (hoursParam poolParam : Option String)
    (rows : List PoolRecord) (now : ℤ) :
    (∀ h : ℤ, jsParseInt (orDefault hoursParam "24") = some h →
        effectiveHours hoursParam = some (min (max h 1) 672)
        ∧ 1 ≤ min (max h 1) 672 ∧ min (max h 1) 672 ≤ 672)
    ∧ effectiveHours none = some 24
    ∧ (jsParseInt (orDefault hoursParam "24") = none →
        effectiveHours hoursParam = none
        ∧ handleHistory (.avail rows) hoursParam poolParam now
            = .ok (json (.rows []) 200))
    ∧ (∃ rs, handleHistory (.avail rows) hoursParam poolParam now
        = .ok (json (.rows rs) 200)) := by
  refine ⟨?_, rfl, ?_, ?_⟩
  · intro h hh
    refine ⟨?_, by omega, by omega⟩
    simp only [effectiveHours, hh, Option.map_some']
    norm_num
  · intro hn
    have he : effectiveHours hoursParam = none := by
      simp [effectiveHours, hn]
    refine ⟨he, ?_⟩
    simp [handleHistory, runQuery, rangeQuery, he, Except.map]
  · exact ⟨rangeQuery rows (effectiveHours hoursParam)
      (normalizePool poolParam) now, rfl⟩

/-- C3 witness: the requested value 99999 is clamped to 672. -/
theorem c3_hours_clamping_witness :
    jsParseInt (orDefault (some "99999") "24") = some 99999
    ∧ effectiveHours (some "99999") = some (min (max 99999 1) 672)
    ∧ (1:ℤ) ≤ min (max 99999 1) 672 ∧ (min (max 99999 1) 672 : ℤ) ≤ 672 :=
  ⟨by rfl, (c3_hours_clamping (some "99999") none [] 0).1 99999 (by rfl)⟩

end SwimTracker
